import Mathlib

/-!
Verification of the instanced-ornament animation core and the camera orbit
controller of the christmas-tree scene (src/components/Ornaments.tsx and
src/components/Experience.tsx), as a shallow embedding over the reals.

The random source of the dataset generator is made explicit as a stream
`rng : Nat → ℝ`; each call of the source's random() consumes the next index
of the stream, in the evaluation order of the source.
-/

namespace Xmas

/-- 3D vector, embedding THREE.Vector3 (components as reals). -/
@[ext] structure Vector3 where
  x : ℝ
  y : ℝ
  z : ℝ

/-- THREE.Vector3.lerp: each component moves by (target - this) * alpha.
The library applies no clamping to alpha. -/
def lerpV (p q : Vector3) (t : ℝ) : Vector3 :=
  ⟨p.x + (q.x - p.x) * t, p.y + (q.y - p.y) * t, p.z + (q.z - p.z) * t⟩

/-- THREE.Vector3.distanceTo: Euclidean distance. -/
noncomputable def dist3 (p q : Vector3) : ℝ :=
  Real.sqrt ((p.x - q.x) ^ 2 + (p.y - q.y) ^ 2 + (p.z - q.z) ^ 2)

/-- The position step the spec prescribes (written from the spec's words, for
comparison with the source's `lerpV` step):
newPosition = currentPosition + (destination - currentPosition) * clamp(delta * speed, 0, 1). -/
def specClampedStep (p dest : Vector3) (t : ℝ) : Vector3 :=
  let c := max 0 (min 1 t)
  ⟨p.x + (dest.x - p.x) * c, p.y + (dest.y - p.y) * c, p.z + (dest.z - p.z) * c⟩

/-- Ornament category (Ornaments.tsx, type OrnamentType). -/
inductive OrnamentType where
  | ball
  | gift
  | light
deriving DecidableEq

/-- The colors an ornament can receive: the palette entries
gold #D4AF37, red #8B0000, whiteGold #F5E6BF, and the fixed light color #FFFFAA. -/
inductive OrnColor where
  | gold
  | red
  | whiteGold
  | lightYellow
deriving DecidableEq

/-- The palette drawn from for non-light ornaments: [gold, red, gold, whiteGold]. -/
def palette : List OrnColor :=
  [OrnColor.gold, OrnColor.red, OrnColor.gold, OrnColor.whiteGold]

/-- Per-instance static record (Ornaments.tsx, interface InstanceData).
Euler rotation offsets are kept as a Vector3 of angles. -/
structure InstanceData where
  chaosPos : Vector3
  targetPos : Vector3
  type : OrnamentType
  color : OrnColor
  scale : ℝ
  speed : ℝ
  rotationOffset : Vector3

/-- Tree height constant of the generator (Ornaments.tsx line 38). -/
def treeHeight : ℝ := 11

/-- Maximum radius constant of the generator (Ornaments.tsx line 39). -/
def maxRadius : ℝ := 4.5

/-- Category assignment from one uniform draw, exactly as the source's
sequential ifs: start at ball, overwrite with gift when rnd > 0.8,
overwrite with light when rnd > 0.9. -/
noncomputable def typeOf (rnd : ℝ) : OrnamentType :=
  let t : OrnamentType := OrnamentType.ball
  let t := if rnd > 0.8 then OrnamentType.gift else t
  let t := if rnd > 0.9 then OrnamentType.light else t
  t

/-- One loop iteration of the dataset generator (Ornaments.tsx lines 49-92):
builds the record for one instance from the random stream starting at index k,
returning the record and the next unused stream index. Lights skip the scale
and color draws (the source's conditional expressions evaluate Math.random()
only in the non-light branch). -/
noncomputable def mkInstance (rng : Nat → ℝ) (k : Nat) : InstanceData × Nat :=
  let rnd := rng k
  let type := typeOf rnd
  let yNorm := (rng (k + 1)) ^ (2.5 : ℝ)
  let y := yNorm * treeHeight + 0.5
  let rScale := 1 - yNorm
  let theta := y * 10 + rng (k + 2) * (Real.pi * 2)
  let r := maxRadius * rScale + rng (k + 3) * 0.5
  let targetPos : Vector3 := ⟨r * Real.cos theta, y, r * Real.sin theta⟩
  let cR := 15 + rng (k + 4) * 15
  let cTheta := rng (k + 5) * (Real.pi * 2)
  let cPhi := Real.arccos (2 * rng (k + 6) - 1)
  let chaosPos : Vector3 :=
    ⟨cR * Real.sin cPhi * Real.cos cTheta,
     cR * Real.sin cPhi * Real.sin cTheta + 5,
     cR * Real.cos cPhi⟩
  match type with
  | OrnamentType.light =>
      let scale : ℝ := 0.15
      let color := OrnColor.lightYellow
      let speed := 0.5 + rng (k + 7) * 1.5
      let rotationOffset : Vector3 := ⟨rng (k + 8) * Real.pi, rng (k + 9) * Real.pi, 0⟩
      (⟨chaosPos, targetPos, OrnamentType.light, color, scale, speed, rotationOffset⟩, k + 10)
  | t =>
      let scale := 0.2 + rng (k + 7) * 0.25
      let color := palette.getD (Int.toNat ⌊rng (k + 8) * 4⌋) OrnColor.gold
      let speed := 0.5 + rng (k + 9) * 1.5
      let rotationOffset : Vector3 := ⟨rng (k + 10) * Real.pi, rng (k + 11) * Real.pi, 0⟩
      (⟨chaosPos, targetPos, t, color, scale, speed, rotationOffset⟩, k + 12)

/-- The three per-category record lists produced by the generator
(Ornaments.tsx, the useMemo returning ballsData/giftsData/lightsData). -/
structure GenOut where
  ballsData : List InstanceData
  giftsData : List InstanceData
  lightsData : List InstanceData

/-- Push one record onto the list of its category (the if/else-if of
Ornaments.tsx lines 94-96). -/
def pushRecord (d : InstanceData) (g : GenOut) : GenOut :=
  match d.type with
  | OrnamentType.ball => ⟨d :: g.ballsData, g.giftsData, g.lightsData⟩
  | OrnamentType.gift => ⟨g.ballsData, d :: g.giftsData, g.lightsData⟩
  | OrnamentType.light => ⟨g.ballsData, g.giftsData, d :: g.lightsData⟩

/-- The generator loop: n instances, drawing from the stream starting at
index k, each record pushed onto the list of its category in loop order. -/
noncomputable def genAux (rng : Nat → ℝ) : Nat → Nat → GenOut
  | _, 0 => ⟨[], [], []⟩
  | k, n + 1 => pushRecord (mkInstance rng k).1 (genAux rng (mkInstance rng k).2 n)

/-- The full dataset generation for a requested count (stream read from index 0). -/
noncomputable def generateOrnaments (rng : Nat → ℝ) (count : Nat) : GenOut :=
  genAux rng 0 count

/-- All records of a generated dataset, in their per-category groups. -/
def allRecords (g : GenOut) : List InstanceData :=
  g.ballsData ++ g.giftsData ++ g.lightsData

/-! The per-frame transform engine (Ornaments.tsx, useFrame / updateMesh). -/

/-- A decomposed instance transform, as the engine reads it back from the
shared matrix buffer: position, Euler rotation angles, uniform scale
(the engine always writes a uniform scale via setScalar). -/
structure Transform where
  pos : Vector3
  rot : Vector3
  scale : ℝ

/-- The angle of the point (x, y) in the plane, in (-π, π]; used for the
yaw of a horizontal look-at. -/
noncomputable def atan2 (y x : ℝ) : ℝ := Complex.arg ⟨x, y⟩

/-- Orientation written by dummy.lookAt(0, pos.y, 0): the look-at target shares
the instance's height, so the resulting rotation is a pure yaw facing away
from the central vertical axis. -/
noncomputable def lookAtRot (p : Vector3) : Vector3 := ⟨0, atan2 p.x p.z, 0⟩

/-- The destination an instance moves toward: targetPos when the mode is
formed, chaosPos otherwise (Ornaments.tsx line 131). -/
def destOf (isFormed : Bool) (d : InstanceData) : Vector3 :=
  if isFormed then d.targetPos else d.chaosPos

/-- The per-instance, per-frame transform update (Ornaments.tsx lines 165-193):
read the decomposed transform, lerp the position toward the destination by
delta * speed (unclamped), add the wobble when formed and within 0.5 of the
formed target, update rotation (gifts spin, others face outward) and scale
(lights pulsate). -/
noncomputable def updInstance (isFormed : Bool) (time δ : ℝ)
    (d : InstanceData) (tr : Transform) : Transform :=
  let dest := destOf isFormed d
  let step := δ * d.speed
  let p1 := lerpV tr.pos dest step
  let p2 :=
    if isFormed = true ∧ dist3 p1 d.targetPos < 0.5 then
      ⟨p1.x, p1.y + Real.sin (time * 2 + d.chaosPos.x) * 0.002, p1.z⟩
    else p1
  let rot :=
    if d.type = OrnamentType.gift then
      ⟨tr.rot.x + δ * 0.5, tr.rot.y + δ * 0.2, tr.rot.z⟩
    else lookAtRot p2
  let s1 := d.scale
  let s2 :=
    if d.type = OrnamentType.light then
      s1 * (1 + Real.sin (time * 5 + d.chaosPos.y) * 0.3)
    else s1
  ⟨p2, rot, s2⟩

/-- One group's per-frame update (Ornaments.tsx, updateMesh): skip when the
mesh handle is absent; otherwise rewrite the first data.length buffer entries
and signal the buffer dirty once (needsUpdate is a single flag set inside the
loop and consumed once after it). Returns the new buffer and the number of
dirty signals issued. -/
noncomputable def updateMesh (handle : Option Unit) (isFormed : Bool) (time δ : ℝ)
    (data : List InstanceData) (buf : List Transform) : List Transform × Nat :=
  match handle with
  | none => (buf, 0)
  | some _ =>
      let newBuf := List.zipWith (updInstance isFormed time δ) data buf ++ buf.drop data.length
      let dirty := if data.isEmpty then 0 else 1
      (newBuf, dirty)

/-- The whole per-frame pass (Ornaments.tsx lines 200-202): the three category
groups are updated independently, each from its own handle, data and buffer. -/
noncomputable def ornamentsFrame (hb hg hl : Option Unit) (isFormed : Bool) (time δ : ℝ)
    (g : GenOut) (bb bg bl : List Transform) :
    (List Transform × Nat) × (List Transform × Nat) × (List Transform × Nat) :=
  (updateMesh hb isFormed time δ g.ballsData bb,
   updateMesh hg isFormed time δ g.giftsData bg,
   updateMesh hl isFormed time δ g.lightsData bl)

/-! The camera orbit controller (Experience.tsx, useFrame lines 25-73). -/

/-- One hand-tracking sample. -/
structure HandSample where
  x : ℝ
  y : ℝ
  detected : Bool

/-- The camera controller state: the current spherical angles and the camera
position and look-at target the controller writes. -/
structure CamState where
  azimuth : ℝ
  polar : ℝ
  camPos : Vector3
  lookAt : Vector3

/-- Target azimuth from the hand x (Experience.tsx line 34): (x - 0.5) * π * 3,
with no clamping of x. -/
noncomputable def targetAzimuthOf (x : ℝ) : ℝ := (x - 0.5) * (Real.pi * 3)

/-- The biased and clamped vertical input (Experience.tsx lines 38-39):
adjustedY = (y - 0.2) * 2.0, clamped into [0, 1]. -/
noncomputable def clampedYOf (y : ℝ) : ℝ := max 0 (min 1 ((y - 0.2) * 2))

/-- Lower polar bound (Experience.tsx line 42). -/
noncomputable def minPolar : ℝ := Real.pi / 4

/-- Upper polar bound (Experience.tsx line 43). -/
noncomputable def maxPolar : ℝ := Real.pi / 1.8

/-- Target polar angle (Experience.tsx line 44). -/
noncomputable def targetPolarOf (y : ℝ) : ℝ :=
  minPolar + clampedYOf y * (maxPolar - minPolar)

/-- Interpolation speed constant (Experience.tsx line 56). -/
def lerpSpeed : ℝ := 8

/-- Azimuth-difference wrap handling (Experience.tsx lines 51-53): two
sequential single corrections by 2π. -/
noncomputable def normalizeAz (d : ℝ) : ℝ :=
  let d1 := if d > Real.pi then d - Real.pi * 2 else d
  let d2 := if d1 < -Real.pi then d1 + Real.pi * 2 else d1
  d2

/-- The interpolated azimuth for one frame (Experience.tsx line 57). -/
noncomputable def newAzimuthOf (cur x δ : ℝ) : ℝ :=
  cur + normalizeAz (targetAzimuthOf x - cur) * δ * lerpSpeed

/-- The interpolated polar angle for one frame (Experience.tsx line 58). -/
noncomputable def newPolarOf (cur y δ : ℝ) : ℝ :=
  cur + (targetPolarOf y - cur) * δ * lerpSpeed

/-- One frame of the camera controller (Experience.tsx lines 25-73): when the
controls handle is attached and the hand is detected, interpolate the angles
and write the spherical-to-Cartesian position around the fixed look-at height;
otherwise do nothing. -/
noncomputable def camFrame (attached : Bool) (s : CamState) (h : HandSample)
    (radius δ : ℝ) : CamState :=
  if attached && h.detected then
    let newAzimuth := newAzimuthOf s.azimuth h.x δ
    let newPolar := newPolarOf s.polar h.y δ
    let targetY : ℝ := 4
    { azimuth := newAzimuth
      polar := newPolar
      camPos := ⟨radius * Real.sin newPolar * Real.sin newAzimuth,
                 targetY + radius * Real.cos newPolar,
                 radius * Real.sin newPolar * Real.cos newAzimuth⟩
      lookAt := ⟨0, targetY, 0⟩ }
  else s

/-- Modelled from the spec: the polar-angle hard constraint enforced by the
underlying orbit primitive (the OrbitControls element of Experience.tsx
declares minPolarAngle = π/4 and maxPolarAngle = π/1.8; the enforcement
itself lives in the external library). -/
noncomputable def orbitClampPolar (φ : ℝ) : ℝ := max minPolar (min maxPolar φ)

/-! Concrete values used by witnesses and counterexamples. -/

/-- A concrete instance record. -/
noncomputable def d0 : InstanceData :=
  ⟨⟨1, 0, 0⟩, ⟨5, 5, 5⟩, OrnamentType.ball, OrnColor.gold, 1, 3 / 2, ⟨0, 0, 0⟩⟩

/-- A concrete transform at the origin. -/
def tr0 : Transform := ⟨⟨0, 0, 0⟩, ⟨0, 0, 0⟩, 1⟩

/-- A concrete camera state. -/
def sC : CamState := ⟨0, 1, ⟨0, 0, 0⟩, ⟨0, 0, 0⟩⟩

/-! Helper lemmas. -/

theorem typeOf_eq_ball_iff (r : ℝ) : typeOf r = OrnamentType.ball ↔ r ≤ 0.8 := by
  unfold typeOf
  split_ifs with h1 h2 <;> simp <;> linarith

theorem typeOf_eq_gift_iff (r : ℝ) :
    typeOf r = OrnamentType.gift ↔ 0.8 < r ∧ r ≤ 0.9 := by
  unfold typeOf
  split_ifs with h1 h2 h3
  · simp
    intro _
    linarith
  · simp
    exact ⟨h1, by linarith⟩
  · simp
    intro _
    linarith
  · simp
    intro h
    linarith

theorem typeOf_eq_light_iff (r : ℝ) : typeOf r = OrnamentType.light ↔ 0.9 < r := by
  unfold typeOf
  split_ifs with h1 h2 <;> simp <;> linarith

theorem pushRecord_length (d : InstanceData) (g : GenOut) :
    (pushRecord d g).ballsData.length + (pushRecord d g).giftsData.length
      + (pushRecord d g).lightsData.length
    = g.ballsData.length + g.giftsData.length + g.lightsData.length + 1 := by
  cases hd : d.type <;> simp [pushRecord, hd] <;> omega

theorem genAux_length_sum (rng : Nat → ℝ) (n : Nat) : ∀ k : Nat,
    (genAux rng k n).ballsData.length + (genAux rng k n).giftsData.length
      + (genAux rng k n).lightsData.length = n := by
  induction n with
  | zero => intro k; rfl
  | succ m ih =>
      intro k
      show (genAux rng k (m + 1)).ballsData.length + _ + _ = _
      simp only [genAux]
      rw [pushRecord_length, ih]

theorem mkInstance_speed (rng : Nat → ℝ) (k : Nat) :
    (mkInstance rng k).1.speed = 0.5 + rng (k + 7) * 1.5 ∨
    (mkInstance rng k).1.speed = 0.5 + rng (k + 9) * 1.5 := by
  simp only [mkInstance]
  cases h : typeOf (rng k) <;> simp

theorem updateMesh_none (isFormed : Bool) (time δ : ℝ)
    (data : List InstanceData) (buf : List Transform) :
    updateMesh none isFormed time δ data buf = (buf, 0) := rfl

theorem updateMesh_nil (handle : Option Unit) (isFormed : Bool) (time δ : ℝ)
    (buf : List Transform) :
    updateMesh handle isFormed time δ [] buf = (buf, 0) := by
  cases handle with
  | none => rfl
  | some u => simp [updateMesh]

theorem camFrame_azimuth_detected (s : CamState) (x y radius δ : ℝ) :
    (camFrame true s ⟨x, y, true⟩ radius δ).azimuth = newAzimuthOf s.azimuth x δ := by
  simp [camFrame]

theorem camFrame_polar_detected (s : CamState) (x y radius δ : ℝ) :
    (camFrame true s ⟨x, y, true⟩ radius δ).polar = newPolarOf s.polar y δ := by
  simp [camFrame]

/-! Claim theorems. -/

/-- C3 (amended): only the y input is clamped — for every real y, the biased
intermediate (y - 0.2) * 2 is clamped into [0, 1]; the x input and the delta
are neither clamped nor ignored but enter the computed azimuth directly, via
targetAzimuth = (x - 0.5) * π * 3 for all real x and a step proportional to
delta even when delta is negative. -/
theorem camera_only_y_clamped (s : CamState) (x y radius δ : ℝ) :
    (0 ≤ clampedYOf y ∧ clampedYOf y ≤ 1) ∧
    (camFrame true s ⟨x, y, true⟩ radius δ).azimuth
      = s.azimuth + normalizeAz ((x - 0.5) * (Real.pi * 3) - s.azimuth) * δ * lerpSpeed ∧
    (camFrame true s ⟨x, y, true⟩ radius δ).polar
      = s.polar + (targetPolarOf y - s.polar) * δ * lerpSpeed := by
  refine ⟨⟨le_max_left _ _, max_le (by norm_num) (min_le_left _ _)⟩, ?_, ?_⟩
  · rw [camFrame_azimuth_detected]
    rfl
  · rw [camFrame_polar_detected]
    rfl

/-- C3 counterexample: the out-of-range hand input x = 2 is neither ignored
(the azimuth moves away from its previous value) nor clamped to the valid
range (the update differs from what x = 1 produces), so out-of-range x flows
into the computed camera angles. -/
theorem camera_input_not_clamped_cex :
    (camFrame true sC ⟨2, 1 / 2, true⟩ 20 (1 / 100)).azimuth ≠ sC.azimuth ∧
    (camFrame true sC ⟨2, 1 / 2, true⟩ 20 (1 / 100)).azimuth
      ≠ (camFrame true sC ⟨1, 1 / 2, true⟩ 20 (1 / 100)).azimuth := by
  have hpi : (0 : ℝ) < Real.pi := Real.pi_pos
  have hA : (camFrame true sC ⟨2, 1 / 2, true⟩ 20 (1 / 100)).azimuth = Real.pi / 5 := by
    rw [camFrame_azimuth_detected]
    simp only [newAzimuthOf, targetAzimuthOf, normalizeAz, lerpSpeed, sC]
    have hc1 : ((2 : ℝ) - 0.5) * (Real.pi * 3) - 0 > Real.pi := by nlinarith
    rw [if_pos hc1]
    have hc2 : ¬ (((2 : ℝ) - 0.5) * (Real.pi * 3) - 0 - Real.pi * 2 < -Real.pi) := by
      push_neg
      nlinarith
    rw [if_neg hc2]
    ring
  have hB : (camFrame true sC ⟨1, 1 / 2, true⟩ 20 (1 / 100)).azimuth = -(Real.pi / 25) := by
    rw [camFrame_azimuth_detected]
    simp only [newAzimuthOf, targetAzimuthOf, normalizeAz, lerpSpeed, sC]
    have hc1 : ((1 : ℝ) - 0.5) * (Real.pi * 3) - 0 > Real.pi := by nlinarith
    rw [if_pos hc1]
    have hc2 : ¬ (((1 : ℝ) - 0.5) * (Real.pi * 3) - 0 - Real.pi * 2 < -Real.pi) := by
      push_neg
      nlinarith
    rw [if_neg hc2]
    ring
  constructor
  · rw [hA]
    show Real.pi / 5 ≠ sC.azimuth
    simp only [sC]
    exact ne_of_gt (by positivity)
  · rw [hA, hB]
    intro h
    nlinarith

/-- C4 (amended): for every target and current azimuth whose raw difference
lies in (-3π, 3π], the single conditional correction normalizes the
difference into the closed interval [-π, π] while changing it only by a
multiple of 2π; for the cited pair (π - 0.01, -π + 0.01) the normalized
difference is exactly -0.02, crossing the wrap boundary. At a raw difference
of exactly -π the result is -π, and outside (-3π, 3π] a single correction
cannot reach [-π, π], so the original half-open claim (-π, π] for all pairs
does not hold. -/
theorem azimuth_short_path (t c : ℝ) :
    normalizeAz ((Real.pi - 0.01) - (-Real.pi + 0.01)) = -0.02 ∧
    (-(3 * Real.pi) < t - c → t - c ≤ 3 * Real.pi →
      -Real.pi ≤ normalizeAz (t - c) ∧ normalizeAz (t - c) ≤ Real.pi ∧
      (normalizeAz (t - c) = t - c ∨ normalizeAz (t - c) = t - c - 2 * Real.pi ∨
       normalizeAz (t - c) = t - c + 2 * Real.pi)) := by
  have hpi : (3 : ℝ) < Real.pi := Real.pi_gt_three
  constructor
  · simp only [normalizeAz]
    have hc1 : (Real.pi - 0.01) - (-Real.pi + 0.01) > Real.pi := by linarith
    rw [if_pos hc1]
    have hc2 : ¬ ((Real.pi - 0.01) - (-Real.pi + 0.01) - Real.pi * 2 < -Real.pi) := by
      push_neg
      linarith
    rw [if_neg hc2]
    ring
  · intro h1 h2
    simp only [normalizeAz]
    split_ifs with ha hb hc
    · exfalso
      linarith
    · exact ⟨by linarith, by linarith, Or.inr (Or.inl (by ring))⟩
    · exact ⟨by linarith, by linarith, Or.inr (Or.inr (by ring))⟩
    · exact ⟨by linarith, by linarith, Or.inl rfl⟩

/-- Witness for C4's amended statement at the raw difference 1. -/
theorem azimuth_short_path_witness :
    -(3 * Real.pi) < (1 : ℝ) - 0 ∧ (1 : ℝ) - 0 ≤ 3 * Real.pi ∧
    -Real.pi ≤ normalizeAz ((1 : ℝ) - 0) ∧ normalizeAz ((1 : ℝ) - 0) ≤ Real.pi := by
  have hpi : (3 : ℝ) < Real.pi := Real.pi_gt_three
  have h1 : -(3 * Real.pi) < (1 : ℝ) - 0 := by linarith
  have h2 : (1 : ℝ) - 0 ≤ 3 * Real.pi := by linarith
  have h := (azimuth_short_path 1 0).2 h1 h2
  exact ⟨h1, h2, h.1, h.2.1⟩

/-- C4 counterexample: for target -π/2 and current π/2 the raw azimuth
difference is exactly -π; the code's normalization leaves it at -π, which is
not in the claimed half-open interval (-π, π]. -/
theorem azimuth_normalization_boundary_cex :
    normalizeAz ((-(Real.pi / 2)) - Real.pi / 2) = -Real.pi ∧
    ¬ (-Real.pi < normalizeAz ((-(Real.pi / 2)) - Real.pi / 2) ∧
       normalizeAz ((-(Real.pi / 2)) - Real.pi / 2) ≤ Real.pi) := by
  have hpi : (0 : ℝ) < Real.pi := Real.pi_pos
  have hval : normalizeAz ((-(Real.pi / 2)) - Real.pi / 2) = -Real.pi := by
    simp only [normalizeAz]
    have hinner : ¬ ((-(Real.pi / 2)) - Real.pi / 2 > Real.pi) := not_lt.mpr (by linarith)
    have houter : ¬ ((-(Real.pi / 2)) - Real.pi / 2 < -Real.pi) := not_lt.mpr (by linarith)
    rw [if_neg hinner, if_neg houter]
    ring
  refine ⟨hval, ?_⟩
  rw [hval]
  rintro ⟨hlt, _⟩
  exact lt_irrefl _ hlt

/-- C5: for every hand input y (any real, including the extremes 0 and 1),
the target polar angle lies in [minPolar, maxPolar]; the polar angle the
orbit primitive ends up with is clamped into [minPolar, maxPolar] for every
current angle and delta; and when the current angle is in range and
delta * lerpSpeed lies in [0, 1], the interpolated polar angle itself already
lies in [minPolar, maxPolar]. -/
theorem polar_angle_bounded (y cur δ : ℝ) :
    (minPolar ≤ targetPolarOf y ∧ targetPolarOf y ≤ maxPolar) ∧
    (minPolar ≤ orbitClampPolar (newPolarOf cur y δ) ∧
      orbitClampPolar (newPolarOf cur y δ) ≤ maxPolar) ∧
    (minPolar ≤ cur → cur ≤ maxPolar → 0 ≤ δ * lerpSpeed → δ * lerpSpeed ≤ 1 →
      minPolar ≤ newPolarOf cur y δ ∧ newPolarOf cur y δ ≤ maxPolar) := by
  have hc0 : 0 ≤ clampedYOf y := le_max_left 0 _
  have hc1 : clampedYOf y ≤ 1 := max_le (by norm_num) (min_le_left 1 _)
  have hmm : minPolar ≤ maxPolar := by
    unfold minPolar maxPolar
    rw [div_le_div_iff (by norm_num) (by norm_num)]
    nlinarith [Real.pi_pos]
  have htb : minPolar ≤ targetPolarOf y ∧ targetPolarOf y ≤ maxPolar := by
    unfold targetPolarOf
    constructor
    · nlinarith [mul_nonneg hc0 (sub_nonneg.mpr hmm)]
    · nlinarith [mul_nonneg (by linarith : (0 : ℝ) ≤ 1 - clampedYOf y) (sub_nonneg.mpr hmm)]
  refine ⟨htb, ⟨?_, ?_⟩, ?_⟩
  · unfold orbitClampPolar
    exact le_max_left _ _
  · unfold orbitClampPolar
    exact max_le hmm (min_le_left _ _)
  · intro hcl hcu h0 h1
    unfold newPolarOf
    constructor
    · nlinarith [mul_nonneg (sub_nonneg.mpr hcl) (by linarith : (0 : ℝ) ≤ 1 - δ * lerpSpeed),
        mul_nonneg (sub_nonneg.mpr htb.1) h0]
    · nlinarith [mul_nonneg (sub_nonneg.mpr hcu) (by linarith : (0 : ℝ) ≤ 1 - δ * lerpSpeed),
        mul_nonneg (sub_nonneg.mpr htb.2) h0]

/-- Witness for C5 at y = 0 with the camera at the lower polar bound and
delta * lerpSpeed = 1. -/
theorem polar_angle_bounded_witness :
    minPolar ≤ Real.pi / 4 ∧ (Real.pi / 4 : ℝ) ≤ maxPolar ∧
    0 ≤ (1 / 8 : ℝ) * lerpSpeed ∧ (1 / 8 : ℝ) * lerpSpeed ≤ 1 ∧
    minPolar ≤ newPolarOf (Real.pi / 4) 0 (1 / 8) ∧
    newPolarOf (Real.pi / 4) 0 (1 / 8) ≤ maxPolar := by
  have h1 : minPolar ≤ Real.pi / 4 := le_refl _
  have h2 : (Real.pi / 4 : ℝ) ≤ maxPolar := by
    unfold maxPolar
    rw [div_le_div_iff (by norm_num) (by norm_num)]
    nlinarith [Real.pi_pos]
  have h3 : 0 ≤ (1 / 8 : ℝ) * lerpSpeed := by norm_num [lerpSpeed]
  have h4 : (1 / 8 : ℝ) * lerpSpeed ≤ 1 := by norm_num [lerpSpeed]
  have h := (polar_angle_bounded 0 (Real.pi / 4) (1 / 8)).2.2 h1 h2 h3 h4
  exact ⟨h1, h2, h3, h4, h.1, h.2⟩

/-- C6: when the hand sample has detected = false, the camera controller
performs no update: the whole camera state after the frame (angles, camera
position and look-at target) equals the state before. -/
theorem camera_frozen_when_undetected (attached : Bool) (s : CamState)
    (h : HandSample) (radius δ : ℝ) (hd : h.detected = false) :
    camFrame attached s h radius δ = s := by
  unfold camFrame
  rw [hd]
  simp

/-- Witness for C6 at a concrete undetected sample and state. -/
theorem camera_frozen_when_undetected_witness :
    (HandSample.mk (1 / 2) (1 / 2) false).detected = false ∧
    camFrame true sC ⟨1 / 2, 1 / 2, false⟩ 20 (1 / 60) = sC :=
  ⟨rfl, camera_frozen_when_undetected true sC ⟨1 / 2, 1 / 2, false⟩ 20 (1 / 60) rfl⟩

/-- C7: for a fixed random stream and identical count, two invocations of the
dataset generator produce identical record sets: the same category partition
and, element by element, equal chaos positions, target positions, colors,
scales, speeds and rotation offsets. -/
theorem dataset_generator_deterministic (rng : Nat → ℝ) (n : Nat) :
    ((generateOrnaments rng n).ballsData = (generateOrnaments rng n).ballsData ∧
     (generateOrnaments rng n).giftsData = (generateOrnaments rng n).giftsData ∧
     (generateOrnaments rng n).lightsData = (generateOrnaments rng n).lightsData) ∧
    ∀ i : Nat,
      ((allRecords (generateOrnaments rng n)).get? i).map InstanceData.chaosPos
        = ((allRecords (generateOrnaments rng n)).get? i).map InstanceData.chaosPos ∧
      ((allRecords (generateOrnaments rng n)).get? i).map InstanceData.targetPos
        = ((allRecords (generateOrnaments rng n)).get? i).map InstanceData.targetPos ∧
      ((allRecords (generateOrnaments rng n)).get? i).map InstanceData.color
        = ((allRecords (generateOrnaments rng n)).get? i).map InstanceData.color ∧
      ((allRecords (generateOrnaments rng n)).get? i).map InstanceData.scale
        = ((allRecords (generateOrnaments rng n)).get? i).map InstanceData.scale ∧
      ((allRecords (generateOrnaments rng n)).get? i).map InstanceData.speed
        = ((allRecords (generateOrnaments rng n)).get? i).map InstanceData.speed ∧
      ((allRecords (generateOrnaments rng n)).get? i).map InstanceData.rotationOffset
        = ((allRecords (generateOrnaments rng n)).get? i).map InstanceData.rotationOffset :=
  ⟨⟨rfl, rfl, rfl⟩, fun _ => ⟨rfl, rfl, rfl, rfl, rfl, rfl⟩⟩

/-- C8: every instance is assigned to exactly one category by the fixed
thresholds on its uniform draw (ball iff rnd ≤ 0.8, gift iff 0.8 < rnd ≤ 0.9,
light iff rnd > 0.9), and the three per-category counts sum to the requested
count. -/
theorem category_partition_complete (rng : Nat → ℝ) (n : Nat) :
    ((generateOrnaments rng n).ballsData.length
       + (generateOrnaments rng n).giftsData.length
       + (generateOrnaments rng n).lightsData.length = n) ∧
    ∀ r : ℝ,
      (typeOf r = OrnamentType.ball ↔ r ≤ 0.8) ∧
      (typeOf r = OrnamentType.gift ↔ 0.8 < r ∧ r ≤ 0.9) ∧
      (typeOf r = OrnamentType.light ↔ 0.9 < r) :=
  ⟨genAux_length_sum rng n 0,
   fun r => ⟨typeOf_eq_ball_iff r, typeOf_eq_gift_iff r, typeOf_eq_light_iff r⟩⟩

/-- C9: each group's per-frame update signals the buffer dirty at most once
per frame; a group with an absent mesh handle or with zero instances is
skipped (buffer untouched, no dirty signal); and skipping one group leaves
the updates of the other groups exactly as they would be on their own. -/
theorem group_update_dirty_once_and_skip
    (h hb hg hl : Option Unit) (isFormed : Bool) (time δ : ℝ) (g : GenOut)
    (data : List InstanceData) (buf bb bg bl : List Transform) :
    (updateMesh h isFormed time δ data buf).2 ≤ 1 ∧
    (data = [] → updateMesh h isFormed time δ data buf = (buf, 0)) ∧
    updateMesh none isFormed time δ data buf = (buf, 0) ∧
    (ornamentsFrame none hg hl isFormed time δ g bb bg bl).2.1
      = updateMesh hg isFormed time δ g.giftsData bg ∧
    (ornamentsFrame hb none hl isFormed time δ g bb bg bl).2.2
      = updateMesh hl isFormed time δ g.lightsData bl ∧
    (ornamentsFrame hb hg none isFormed time δ g bb bg bl).1
      = updateMesh hb isFormed time δ g.ballsData bb := by
  refine ⟨?_, ?_, rfl, rfl, rfl, rfl⟩
  · cases h with
    | none => norm_num [updateMesh]
    | some u =>
        simp only [updateMesh]
        split <;> norm_num
  · intro hd
    subst hd
    exact updateMesh_nil h isFormed time δ buf

/-- Witness for C9 at a concrete group with a present handle and no
instances. -/
theorem group_update_dirty_once_and_skip_witness :
    updateMesh (some ()) false 0 0 [] [] = ([], 0) ∧
    (updateMesh (some ()) false 0 0 [] []).2 ≤ 1 := by
  have h := group_update_dirty_once_and_skip (some ()) none none none false 0 0
    ⟨[], [], []⟩ [] [] [] [] []
  exact ⟨h.2.1 rfl, h.1⟩

/-- C10: every per-instance speed produced by the generator lies in
[0.5, 2) when the uniform draws lie in [0, 1), and consequently
delta * speed ≤ 1 whenever the frame delta is at most 0.5 seconds. -/
theorem speed_in_range (rng : Nat → ℝ) (k : Nat)
    (h7 : 0 ≤ rng (k + 7)) (h7' : rng (k + 7) < 1)
    (h9 : 0 ≤ rng (k + 9)) (h9' : rng (k + 9) < 1) :
    0.5 ≤ (mkInstance rng k).1.speed ∧ (mkInstance rng k).1.speed < 2 ∧
    ∀ δ : ℝ, δ ≤ 0.5 → δ * (mkInstance rng k).1.speed ≤ 1 := by
  have hlo : 0.5 ≤ (mkInstance rng k).1.speed := by
    rcases mkInstance_speed rng k with hs | hs <;> rw [hs] <;> nlinarith
  have hhi : (mkInstance rng k).1.speed < 2 := by
    rcases mkInstance_speed rng k with hs | hs <;> rw [hs] <;> nlinarith
  refine ⟨hlo, hhi, ?_⟩
  intro δ hδ
  rcases le_or_lt δ 0 with hneg | hpos
  · nlinarith
  · nlinarith

/-- C2: whenever delta * speed lies in [0, 1], the per-frame lerp toward the
active destination (targetPos when formed, chaosPos otherwise) does not
increase the distance to that destination. -/
theorem dist_to_dest_nonincreasing (p : Vector3) (d : InstanceData)
    (isFormed : Bool) (δ : ℝ)
    (h0 : 0 ≤ δ * d.speed) (h1 : δ * d.speed ≤ 1) :
    dist3 (lerpV p (destOf isFormed d) (δ * d.speed)) (destOf isFormed d)
      ≤ dist3 p (destOf isFormed d) := by
  set q := destOf isFormed d with hq
  set t := δ * d.speed with ht
  unfold dist3 lerpV
  apply Real.sqrt_le_sqrt
  dsimp only
  have h2 : (0 : ℝ) ≤ 2 - t := by linarith
  have hx := mul_nonneg (mul_nonneg (sq_nonneg (p.x - q.x)) h0) h2
  have hy := mul_nonneg (mul_nonneg (sq_nonneg (p.y - q.y)) h0) h2
  have hz := mul_nonneg (mul_nonneg (sq_nonneg (p.z - q.z)) h0) h2
  nlinarith [hx, hy, hz]

/-- Witness for C2 at a concrete point, record and delta. -/
theorem dist_to_dest_nonincreasing_witness :
    (0 : ℝ) ≤ (1 / 3) * d0.speed ∧ (1 / 3 : ℝ) * d0.speed ≤ 1 ∧
    dist3 (lerpV tr0.pos (destOf false d0) ((1 / 3) * d0.speed)) (destOf false d0)
      ≤ dist3 tr0.pos (destOf false d0) := by
  refine ⟨by norm_num [d0], by norm_num [d0],
    dist_to_dest_nonincreasing tr0.pos d0 false (1 / 3) (by norm_num [d0]) (by norm_num [d0])⟩

theorem updInstance_pos_no_wobble (isFormed : Bool) (time δ : ℝ)
    (d : InstanceData) (tr : Transform)
    (hw : ¬ (isFormed = true ∧
        dist3 (lerpV tr.pos (destOf isFormed d) (δ * d.speed)) d.targetPos < 0.5)) :
    (updInstance isFormed time δ d tr).pos
      = lerpV tr.pos (destOf isFormed d) (δ * d.speed) := by
  simp only [updInstance]
  rw [if_neg hw]

/-- C1 (amended): the position update is the unclamped lerp
newPosition = current + (destination - current) * (delta * speed); when the
wobble branch does not fire it is exactly what the engine writes, and it
agrees with the spec's clamped formula precisely when delta * speed lies in
[0, 1]. -/
theorem lerp_step_unclamped (isFormed : Bool) (time δ : ℝ)
    (d : InstanceData) (tr : Transform) :
    ((isFormed = true →
        ¬ dist3 (lerpV tr.pos (destOf isFormed d) (δ * d.speed)) d.targetPos < 0.5) →
      (updInstance isFormed time δ d tr).pos
        = lerpV tr.pos (destOf isFormed d) (δ * d.speed)) ∧
    (0 ≤ δ * d.speed → δ * d.speed ≤ 1 →
      lerpV tr.pos (destOf isFormed d) (δ * d.speed)
        = specClampedStep tr.pos (destOf isFormed d) (δ * d.speed)) := by
  constructor
  · intro hw
    apply updInstance_pos_no_wobble
    rintro ⟨hf, hdist⟩
    exact hw hf hdist
  · intro h0 h1
    unfold lerpV specClampedStep
    rw [min_eq_right h1, max_eq_right h0]

/-- Witness for C1's amended statement at a concrete record, transform and
delta with delta * speed = 1/2. -/
theorem lerp_step_unclamped_witness :
    (updInstance false 0 (1 / 3) d0 tr0).pos
      = lerpV tr0.pos (destOf false d0) ((1 / 3) * d0.speed) ∧
    lerpV tr0.pos (destOf false d0) ((1 / 3) * d0.speed)
      = specClampedStep tr0.pos (destOf false d0) ((1 / 3) * d0.speed) := by
  constructor
  · exact (lerp_step_unclamped false 0 (1 / 3) d0 tr0).1 (by intro h; cases h)
  · exact (lerp_step_unclamped false 0 (1 / 3) d0 tr0).2
      (by norm_num [d0]) (by norm_num [d0])

/-- C1 counterexample: with delta = 2 and speed = 3/2 (so delta * speed = 3),
the engine's written position differs from the spec's clamped formula and
overshoots past the destination, ending farther from it than it started. -/
theorem lerp_step_not_clamped_cex :
    (updInstance false 0 2 d0 tr0).pos
      ≠ specClampedStep tr0.pos d0.chaosPos (2 * d0.speed) ∧
    dist3 tr0.pos d0.chaosPos
      < dist3 (updInstance false 0 2 d0 tr0).pos d0.chaosPos := by
  have hpos : (updInstance false 0 2 d0 tr0).pos = ⟨3, 0, 0⟩ := by
    rw [updInstance_pos_no_wobble false 0 2 d0 tr0 (by rintro ⟨hf, _⟩; cases hf)]
    show lerpV tr0.pos (destOf false d0) (2 * d0.speed) = _
    simp [lerpV, destOf, d0, tr0]
    norm_num
  have hspec : specClampedStep tr0.pos d0.chaosPos (2 * d0.speed) = ⟨1, 0, 0⟩ := by
    simp [specClampedStep, d0, tr0]
    norm_num
  constructor
  · rw [hpos, hspec]
    intro h
    have hx := congrArg Vector3.x h
    norm_num at hx
  · rw [hpos]
    show dist3 tr0.pos d0.chaosPos < dist3 ⟨3, 0, 0⟩ d0.chaosPos
    unfold dist3
    apply Real.sqrt_lt_sqrt
    · positivity
    · simp only [d0, tr0]
      norm_num

/-- Witness for C10 with the constant stream at 1/2 and a concrete delta. -/
theorem speed_in_range_witness :
    (0 : ℝ) ≤ (fun _ : Nat => (1 : ℝ) / 2) (0 + 7) ∧
    (fun _ : Nat => (1 : ℝ) / 2) (0 + 7) < 1 ∧
    0.5 ≤ (mkInstance (fun _ => (1 : ℝ) / 2) 0).1.speed ∧
    (mkInstance (fun _ => (1 : ℝ) / 2) 0).1.speed < 2 ∧
    (1 / 4 : ℝ) * (mkInstance (fun _ => (1 : ℝ) / 2) 0).1.speed ≤ 1 := by
  have h := speed_in_range (fun _ => (1 : ℝ) / 2) 0
    (by norm_num) (by norm_num) (by norm_num) (by norm_num)
  exact ⟨by norm_num, by norm_num, h.1, h.2.1, h.2.2 (1 / 4) (by norm_num)⟩

end Xmas
